import Mathlib

set_option maxRecDepth 10000

/-!
Verification of the inline function-plot renderer of the Socratica repository.

The renderer lives in src/MathGraph.tsx: it samples a compiled mathematical
expression at 151 evenly spaced x-values over a domain, drops samples whose
evaluation throws or does not yield a finite number, computes a clamped
vertical view window, and maps every surviving point into a padded SVG canvas.
The directive parsing (bound extraction and defaulting) lives in
src/components/MessageBubble.tsx.

Numbers are modelled as rationals.  A single mathjs evaluate call at one
sample x is modelled by its observable outcome (EvalOut below): either a
finite number, a non-numeric result (complex, undefined, ...), a non-finite
number (NaN or an infinity), or a thrown evaluation error; the TypeScript
guard `typeof y === number && !isNaN(y) && isFinite(y)` keeps exactly the
first case.  The outcome of math.parse followed by compile is modelled as
`Except String (ℚ → EvalOut)`: either a parse error carrying the parser
message, or a compiled evaluator applied once per sample.
-/

namespace Socratica

/-- Observable outcome of one `code.evaluate({x})` call in MathGraph.tsx:
a finite numeric result, a non-numeric result (complex, undefined, string...),
a non-finite numeric result (NaN, plus or minus Infinity), or a thrown
evaluation error.  Only `ok` passes the guard on line 37 of MathGraph.tsx. -/
inductive EvalOut where
  | ok (y : ℚ)
  | nonNumeric
  | nonFinite
  | thrown
  deriving DecidableEq, Repr

/-- One sample point `{x, y}` pushed by the sampling loop. -/
structure Point where
  x : ℚ
  y : ℚ
  deriving DecidableEq, Repr

/-- `const steps = 150` (MathGraph.tsx line 18). -/
def steps : ℕ := 150

/-- The i-th sample abscissa `x = minX + i * stepSize` with
`stepSize = (maxX - minX) / steps` (MathGraph.tsx lines 20 and 34). -/
def sampleX (minX maxX : ℚ) (i : ℕ) : ℚ :=
  minX + i * ((maxX - minX) / steps)

/-- The sampling loop of MathGraph.tsx lines 33-41: for i = 0..steps,
evaluate the compiled expression at `sampleX`; push `{x, y}` exactly when the
evaluation returns a finite number; a thrown error, a non-numeric result or a
non-finite result skips the sample. -/
def samplePoints (ev : ℚ → EvalOut) (minX maxX : ℚ) : List Point :=
  (List.range (steps + 1)).foldl
    (fun points i =>
      match ev (sampleX minX maxX i) with
      | .ok y => points ++ [⟨sampleX minX maxX i, y⟩]
      | .nonNumeric => points
      | .nonFinite => points
      | .thrown => points)
    []

/-- The `data` value of the useMemo in MathGraph.tsx lines 16-46:
`{points, error: null}` when the expression compiled, and
`{points: [], error: message}` when math.parse or compile threw. -/
structure GraphData where
  points : List Point
  error : Option String
  deriving DecidableEq, Repr

/-- Outcome of `math.parse(cleanExpr)` followed by `.compile()`: a compiled
evaluator or a parse error message. -/
abbrev ParseOutcome := Except String (ℚ → EvalOut)

/-- The try/catch of MathGraph.tsx lines 22-45 around parsing and sampling. -/
def computeData (parsed : ParseOutcome) (minX maxX : ℚ) : GraphData :=
  match parsed with
  | .ok ev => ⟨samplePoints ev minX maxX, none⟩
  | .error msg => ⟨[], some msg⟩

/-- `const width = 400` (MathGraph.tsx line 58). -/
def width : ℚ := 400

/-- `const height = 250` (MathGraph.tsx line 59). -/
def height : ℚ := 250

/-- `const padding = 30` (MathGraph.tsx line 60). -/
def padding : ℚ := 30

/-- `const minY = Math.max(Math.min(...allY, -1), -15)` (MathGraph.tsx
line 63), as a function of the list `allY` of sampled y-values. -/
def minY (allY : List ℚ) : ℚ :=
  max (allY.foldr min (-1)) (-15)

/-- `const maxY = Math.min(Math.max(...allY, 1), 15)` (MathGraph.tsx
line 64). -/
def maxY (allY : List ℚ) : ℚ :=
  min (allY.foldr max 1) 15

/-- `mapX` of MathGraph.tsx line 67. -/
def mapX (minX maxX : ℚ) (x : ℚ) : ℚ :=
  padding + ((x - minX) / (maxX - minX)) * (width - 2 * padding)

/-- `mapY` of MathGraph.tsx lines 68-71: the y-value is first re-clamped into
the computed view window, then mapped linearly with the device y-axis
inverted. -/
def mapY (lo hi : ℚ) (y : ℚ) : ℚ :=
  let clampedY := max lo (min hi y)
  height - padding - ((clampedY - lo) / (hi - lo)) * (height - 2 * padding)

/-- The device-space vertices of the polyline built by the `pathData` reduce
of MathGraph.tsx lines 73-77 (the SVG string holds exactly these pairs, the
first as a move-to and the rest as line-to commands). -/
def pathData (points : List Point) (minX maxX : ℚ) : List (ℚ × ℚ) :=
  points.map (fun p =>
    (mapX minX maxX p.x, mapY (minY (points.map Point.y)) (maxY (points.map Point.y)) p.y))

/-- What the component returns (MathGraph.tsx lines 48-115): an inline error
panel showing the parse message, nothing at all (`return null`), or the chart
with its polyline. -/
inductive Rendered where
  | errorPanel (msg : String)
  | nothing
  | chart (path : List (ℚ × ℚ))
  deriving DecidableEq, Repr

/-- True exactly on the chart outcome. -/
def Rendered.isChart : Rendered → Bool
  | .chart _ => true
  | _ => false

/-- The whole MathGraph component: error branch (line 48), the
`points.length < 2` guard (line 56), otherwise the chart. -/
def render (parsed : ParseOutcome) (minX maxX : ℚ) : Rendered :=
  let data := computeData parsed minX maxX
  match data.error with
  | some msg => .errorPanel msg
  | none =>
    if data.points.length < 2 then .nothing
    else .chart (pathData data.points minX maxX)

/-- A JavaScript number that is either NaN or an actual (here: rational)
value; parseFloat of an unparsable string is NaN. -/
inductive JNum where
  | nan
  | num (q : ℚ)
  deriving DecidableEq, Repr

/-- Numeric value of a list of decimal digit characters. -/
def digitsVal (ds : List Char) : ℕ :=
  ds.foldl (fun n c => 10 * n + (c.toNat - 48)) 0

/-- Modelled from JavaScript parseFloat semantics (a host builtin, not code of
this repository): after optional sign, read decimal digits and an optional
fraction part; if no digit was read at all the result is NaN.  The exponent
form is not needed for the directives at issue and is left out. -/
def parseFloatCore (cs : List Char) : JNum :=
  let signed : ℚ × List Char :=
    match cs with
    | '-' :: r => (-1, r)
    | '+' :: r => (1, r)
    | r => (1, r)
  let intDs := signed.2.takeWhile Char.isDigit
  let rest := signed.2.dropWhile Char.isDigit
  match rest with
  | '.' :: r =>
    let fracDs := r.takeWhile Char.isDigit
    if intDs.isEmpty && fracDs.isEmpty then .nan
    else .num (signed.1 * ((digitsVal intDs : ℚ) + (digitsVal fracDs : ℚ) / (10 ^ fracDs.length)))
  | _ =>
    if intDs.isEmpty then .nan
    else .num (signed.1 * (digitsVal intDs : ℚ))

/-- Modelled from JavaScript parseFloat semantics: leading whitespace is
skipped, then `parseFloatCore` reads a number prefix. -/
def parseFloatJS (s : String) : JNum :=
  parseFloatCore (s.data.dropWhile Char.isWhitespace)

/-- `const min = plotMatch[2] ? parseFloat(plotMatch[2]) : -5`
(MessageBubble.tsx line 50): the regex group is `none` when the field was
omitted; a captured field is always a non-empty string, hence truthy, and is
passed to parseFloat unconditionally. -/
def directiveMin (g : Option String) : JNum :=
  match g with
  | some s => parseFloatJS s
  | none => .num (-5)

/-- `const max = plotMatch[3] ? parseFloat(plotMatch[3]) : 5`
(MessageBubble.tsx line 51). -/
def directiveMax (g : Option String) : JNum :=
  match g with
  | some s => parseFloatJS s
  | none => .num 5

/-- The numeric payload a successful evaluation carries, `none` on every
skipped case. -/
def evalToOption : EvalOut → Option ℚ
  | .ok y => some y
  | .nonNumeric => none
  | .nonFinite => none
  | .thrown => none

/-- The point the sampling loop produces at loop index i: `some {x, y}` when
the evaluation at `sampleX` returns a finite number y, `none` when that
sample is skipped. -/
def sampleAt (ev : ℚ → EvalOut) (minX maxX : ℚ) (i : ℕ) : Option Point :=
  (evalToOption (ev (sampleX minX maxX i))).map (fun y => ⟨sampleX minX maxX i, y⟩)

/-- `const allY = data.points.map(p => p.y)` (MathGraph.tsx line 62) for the
points produced by the sampling loop. -/
def allY (ev : ℚ → EvalOut) (a b : ℚ) : List ℚ :=
  (samplePoints ev a b).map Point.y

end Socratica

namespace Socratica

/-- The push-on-success loop equals a filterMap over the loop indices: what
the loop accumulates is the initial accumulator followed by the successful
samples in index order. -/
theorem samplePoints_foldl_aux (ev : ℚ → EvalOut) (a b : ℚ) (l : List ℕ) (acc : List Point) :
    l.foldl
      (fun points i =>
        match ev (sampleX a b i) with
        | .ok y => points ++ [⟨sampleX a b i, y⟩]
        | .nonNumeric => points
        | .nonFinite => points
        | .thrown => points)
      acc
      = acc ++ l.filterMap (sampleAt ev a b) := by
  induction l generalizing acc with
  | nil => simp
  | cons i l ih =>
    simp only [List.foldl_cons, List.filterMap_cons]
    cases h : ev (sampleX a b i) <;> simp [sampleAt, evalToOption, h, ih]

/-- The sampling loop yields exactly the successfully evaluated samples of
the 151 grid indices, in increasing index order. -/
theorem samplePoints_eq_filterMap (ev : ℚ → EvalOut) (a b : ℚ) :
    samplePoints ev a b = (List.range (steps + 1)).filterMap (sampleAt ev a b) := by
  unfold samplePoints
  simpa using samplePoints_foldl_aux ev a b (List.range (steps + 1)) []

/-- A min-fold never exceeds its initial value. -/
theorem foldr_min_le_init (l : List ℚ) (c : ℚ) : l.foldr min c ≤ c := by
  induction l with
  | nil => exact le_refl c
  | cons a l ih => exact le_trans (min_le_right _ _) ih

/-- A max-fold is never below its initial value. -/
theorem init_le_foldr_max (l : List ℚ) (c : ℚ) : c ≤ l.foldr max c := by
  induction l with
  | nil => exact le_refl c
  | cons a l ih => exact le_trans ih (le_max_right _ _)

/-- The computed lower view bound never exceeds -1, for any list of sampled
y-values (minY takes the min with -1 before clamping at -15). -/
theorem minY_le_neg_one (ys : List ℚ) : minY ys ≤ -1 := by
  unfold minY
  exact max_le (foldr_min_le_init ys (-1)) (by norm_num)

/-- The computed lower view bound is clamped at -15. -/
theorem neg_fifteen_le_minY (ys : List ℚ) : -15 ≤ minY ys := le_max_right _ _

/-- The computed upper view bound is at least 1. -/
theorem one_le_maxY (ys : List ℚ) : 1 ≤ maxY ys := by
  unfold maxY
  exact le_min (init_le_foldr_max ys 1) (by norm_num)

/-- The computed upper view bound is clamped at 15. -/
theorem maxY_le_fifteen (ys : List ℚ) : maxY ys ≤ 15 := min_le_right _ _

/-- Whenever the view window satisfies lo ≤ -1 and 1 ≤ hi (as the computed
window always does), mapY sends every y into the padded canvas band. -/
theorem mapY_mem_canvas (lo hi y : ℚ) (h1 : lo ≤ -1) (h2 : 1 ≤ hi) :
    padding ≤ mapY lo hi y ∧ mapY lo hi y ≤ height - padding := by
  have hlt : lo < hi := by linarith
  have hc1 : lo ≤ max lo (min hi y) := le_max_left _ _
  have hc2 : max lo (min hi y) ≤ hi := max_le (le_of_lt hlt) (min_le_left _ _)
  have hr0 : 0 ≤ (max lo (min hi y) - lo) / (hi - lo) :=
    div_nonneg (by linarith) (by linarith)
  have hr1 : (max lo (min hi y) - lo) / (hi - lo) ≤ 1 :=
    (div_le_one (by linarith)).mpr (by linarith)
  unfold mapY padding height
  constructor <;> nlinarith [hr0, hr1]

/-- For a non-degenerate domain, mapX sends every x of the domain into the
padded canvas band. -/
theorem mapX_mem_canvas (a b x : ℚ) (hab : a < b) (hx1 : a ≤ x) (hx2 : x ≤ b) :
    padding ≤ mapX a b x ∧ mapX a b x ≤ width - padding := by
  have hr0 : 0 ≤ (x - a) / (b - a) := div_nonneg (by linarith) (by linarith)
  have hr1 : (x - a) / (b - a) ≤ 1 := (div_le_one (by linarith)).mpr (by linarith)
  unfold mapX padding width
  constructor <;> nlinarith [hr0, hr1]

/-- Every sample abscissa lies in the closed domain [a, b] when a ≤ b. -/
theorem sampleX_mem (a b : ℚ) (hab : a ≤ b) (i : ℕ) (hi : i ≤ steps) :
    a ≤ sampleX a b i ∧ sampleX a b i ≤ b := by
  have hd : 0 ≤ (b - a) / (steps : ℚ) := div_nonneg (by linarith) (by norm_num [steps])
  have hic : (i : ℚ) ≤ (steps : ℚ) := by exact_mod_cast hi
  have hup : (i : ℚ) * ((b - a) / (steps : ℚ)) ≤ (steps : ℚ) * ((b - a) / (steps : ℚ)) :=
    mul_le_mul_of_nonneg_right hic hd
  have hcancel : (steps : ℚ) * ((b - a) / (steps : ℚ)) = b - a := by
    norm_num [steps]
    ring
  constructor
  · unfold sampleX
    nlinarith [mul_nonneg (Nat.cast_nonneg i : (0:ℚ) ≤ i) hd]
  · unfold sampleX
    rw [hcancel] at hup
    linarith

/-- C1: whenever the sampling yields at least one point, the computed
vertical view bounds satisfy -15 ≤ minY ≤ -1 and 1 ≤ maxY ≤ 15 (the code
takes min with -1 and max with 1 before clamping at -15 and 15), so however
large the raw sampled values are — near-singular expressions included —
neither bound ever exceeds the clamp constant 15 in magnitude. -/
theorem clamped_view_bounds_bounded (ev : ℚ → EvalOut) (a b : ℚ)
    (h : samplePoints ev a b ≠ []) :
    -15 ≤ minY (allY ev a b) ∧ minY (allY ev a b) ≤ -1 ∧
    1 ≤ maxY (allY ev a b) ∧ maxY (allY ev a b) ≤ 15 ∧
    |minY (allY ev a b)| ≤ 15 ∧ |maxY (allY ev a b)| ≤ 15 := by
  refine ⟨neg_fifteen_le_minY _, minY_le_neg_one _, one_le_maxY _, maxY_le_fifteen _, ?_, ?_⟩
  · exact abs_le.mpr ⟨neg_fifteen_le_minY _, le_trans (minY_le_neg_one _) (by norm_num)⟩
  · exact abs_le.mpr ⟨le_trans (by norm_num) (one_le_maxY _), maxY_le_fifteen _⟩

/-- Witness for C1 at the directive x over [-1, 1]: the sampling is
non-empty and the clamped view bounds are within the stated limits. -/
theorem clamped_view_bounds_bounded_witness :
    samplePoints (fun x => EvalOut.ok x) (-1) 1 ≠ [] ∧
    (-15 ≤ minY (allY (fun x => EvalOut.ok x) (-1) 1) ∧
      minY (allY (fun x => EvalOut.ok x) (-1) 1) ≤ -1 ∧
      1 ≤ maxY (allY (fun x => EvalOut.ok x) (-1) 1) ∧
      maxY (allY (fun x => EvalOut.ok x) (-1) 1) ≤ 15 ∧
      |minY (allY (fun x => EvalOut.ok x) (-1) 1)| ≤ 15 ∧
      |maxY (allY (fun x => EvalOut.ok x) (-1) 1)| ≤ 15) :=
  ⟨by decide, clamped_view_bounds_bounded _ _ _ (by decide)⟩

/-- C2: for every successful render (at least 2 surviving points and
domainMin < domainMax), every device-space vertex of the polyline lies inside
the padded canvas: its first coordinate in [padding, width - padding] and its
second in [padding, height - padding]; mapY re-clamps y into the computed
view window before the linear map, which makes the vertical bound
unconditional. -/
theorem mapped_points_within_canvas (ev : ℚ → EvalOut) (a b : ℚ)
    (hab : a < b) (hlen : 2 ≤ (samplePoints ev a b).length) :
    ∀ q ∈ pathData (samplePoints ev a b) a b,
      padding ≤ q.1 ∧ q.1 ≤ width - padding ∧
      padding ≤ q.2 ∧ q.2 ≤ height - padding := by
  intro q hq
  unfold pathData at hq
  rcases List.mem_map.mp hq with ⟨p, hp, rfl⟩
  have hx : a ≤ p.x ∧ p.x ≤ b := by
    rw [samplePoints_eq_filterMap] at hp
    rcases List.mem_filterMap.mp hp with ⟨i, hi, hat⟩
    unfold sampleAt at hat
    rcases Option.map_eq_some'.mp hat with ⟨y, hy, rfl⟩
    exact sampleX_mem a b (le_of_lt hab) i (Nat.lt_succ_iff.mp (List.mem_range.mp hi))
  have h1 := mapX_mem_canvas a b p.x hab hx.1 hx.2
  have h2 := mapY_mem_canvas (minY ((samplePoints ev a b).map Point.y))
    (maxY ((samplePoints ev a b).map Point.y)) p.y (minY_le_neg_one _) (one_le_maxY _)
  exact ⟨h1.1, h1.2, h2.1, h2.2⟩

/-- Witness for C2 at the constant expression 0 over [0, 1]: both hypotheses
hold and every polyline vertex is inside the padded canvas. -/
theorem mapped_points_within_canvas_witness :
    (0 : ℚ) < 1 ∧ 2 ≤ (samplePoints (fun _ => EvalOut.ok 0) 0 1).length ∧
    ∀ q ∈ pathData (samplePoints (fun _ => EvalOut.ok 0) 0 1) 0 1,
      padding ≤ q.1 ∧ q.1 ≤ width - padding ∧
      padding ≤ q.2 ∧ q.2 ≤ height - padding :=
  ⟨by simp, by decide,
    mapped_points_within_canvas _ 0 1 (by simp) (by decide)⟩

/-- C3: per-sample failures are not fatal and signal no error: when the
expression compiled, the result carries no error message, and the produced
sequence is exactly the successful samples of the 151 grid points in
increasing index order — a point is in the output precisely when its
evaluation returned a finite number, so each failing sample (thrown error,
non-numeric, NaN or infinite result) is omitted on its own while every other
valid sample is kept. -/
theorem per_sample_failures_dropped (ev : ℚ → EvalOut) (a b : ℚ) :
    (computeData (.ok ev) a b).error = none ∧
    samplePoints ev a b = (List.range (steps + 1)).filterMap (sampleAt ev a b) ∧
    ∀ p, p ∈ samplePoints ev a b ↔ ∃ i, i < steps + 1 ∧ sampleAt ev a b i = some p := by
  refine ⟨rfl, samplePoints_eq_filterMap ev a b, ?_⟩
  intro p
  rw [samplePoints_eq_filterMap, List.mem_filterMap]
  constructor
  · rintro ⟨i, hi, hp⟩
    exact ⟨i, List.mem_range.mp hi, hp⟩
  · rintro ⟨i, hi, hp⟩
    exact ⟨i, List.mem_range.mpr hi, hp⟩

/-- C4: when parsing or compiling the expression fails with a message, the
component returns the error-carrying result with an empty point sequence and
renders the inline error panel showing that same message, never the chart. -/
theorem compile_error_shows_panel (msg : String) (a b : ℚ) :
    computeData (.error msg) a b = ⟨[], some msg⟩ ∧
    render (.error msg) a b = .errorPanel msg ∧
    (render (.error msg) a b).isChart = false :=
  ⟨rfl, rfl, rfl⟩

/-- C5: when the expression compiled but fewer than 2 sample points survive,
the component renders nothing — an outcome distinct both from the inline
error panel and from a chart. -/
theorem insufficient_points_render_nothing (ev : ℚ → EvalOut) (a b : ℚ)
    (h : (samplePoints ev a b).length < 2) :
    render (.ok ev) a b = .nothing ∧
    (∀ m, (Rendered.nothing : Rendered) ≠ .errorPanel m) ∧
    ∀ pd, (Rendered.nothing : Rendered) ≠ .chart pd := by
  refine ⟨?_, fun m => by simp, fun pd => by simp⟩
  simp [render, computeData, h]

/-- Witness for C5 at an evaluator that throws everywhere: no point survives
and the component renders nothing. -/
theorem insufficient_points_render_nothing_witness :
    (samplePoints (fun _ => EvalOut.thrown) 0 1).length < 2 ∧
    (render (.ok (fun _ => EvalOut.thrown)) 0 1 = .nothing ∧
      (∀ m, (Rendered.nothing : Rendered) ≠ .errorPanel m) ∧
      ∀ pd, (Rendered.nothing : Rendered) ≠ .chart pd) :=
  ⟨by decide, insufficient_points_render_nothing _ 0 1 (by decide)⟩

/-- C6 counterexample: a present but unparsable bound field does not fall
back to the default: the directive field "abc" yields NaN as the lower
bound, not the default -5, refuting the claim at this concrete input. -/
theorem unparsable_bound_is_nan :
    directiveMin (some "abc") = JNum.nan ∧
    directiveMin (some "abc") ≠ JNum.num (-5) := by
  constructor <;> decide

/-- C6 amended: an omitted bound field yields the default bounds -5 and 5,
but a present field is passed to parseFloat unconditionally, so an
unparsable field ("abc", "xyz") yields NaN as the bound rather than the
default. -/
theorem domain_bound_defaulting :
    directiveMin none = JNum.num (-5) ∧ directiveMax none = JNum.num 5 ∧
    (∀ s, directiveMin (some s) = parseFloatJS s) ∧
    (∀ s, directiveMax (some s) = parseFloatJS s) ∧
    directiveMin (some "abc") = JNum.nan ∧
    directiveMax (some "xyz") = JNum.nan :=
  ⟨rfl, rfl, fun _ => rfl, fun _ => rfl, by decide, by decide⟩

/-- C7 counterexample: the domain invariant is not validated: with reversed
bounds 5 and -5 and an everywhere-defined expression the component renders a
chart — not nothing and not an inline error — refuting the claim that a
violated domain invariant renders nothing or an inline error. -/
theorem reversed_domain_renders_chart :
    (render (.ok (fun _ => EvalOut.ok 0)) 5 (-5)).isChart = true ∧
    render (.ok (fun _ => EvalOut.ok 0)) 5 (-5) ≠ .nothing := by
  constructor <;> decide

/-- C7 amended: with equal or reversed bounds the compiled-expression path
still never produces an error panel and never throws — the outcome is
always either nothing or a chart (possibly with degenerate coordinates); the
domain invariant itself is not checked anywhere. -/
theorem invalid_domain_never_panics (ev : ℚ → EvalOut) (a b : ℚ) (h : b ≤ a) :
    render (.ok ev) a b = .nothing ∨ (render (.ok ev) a b).isChart = true := by
  by_cases hlen : (samplePoints ev a b).length < 2
  · left
    simp [render, computeData, hlen]
  · right
    simp [render, computeData, hlen, Rendered.isChart]

/-- Witness for C7 amended at equal bounds 0 and 0. -/
theorem invalid_domain_never_panics_witness :
    (0 : ℚ) ≤ 0 ∧
    (render (.ok (fun _ => EvalOut.ok 0)) 0 0 = .nothing ∨
      (render (.ok (fun _ => EvalOut.ok 0)) 0 0).isChart = true) :=
  ⟨le_refl 0, invalid_domain_never_panics _ 0 0 (le_refl 0)⟩

/-- C8: the sampler evaluates the compiled expression at the 151 grid points
x_i = min + i * (max - min) / 150 for i = 0..150,
keeps them in increasing index order, the grid contains both endpoints
(x_0 = min, x_150 = max), and consecutive abscissas differ by the constant
step (max - min) / 150. -/
theorem sampling_grid_structure (ev : ℚ → EvalOut) (a b : ℚ) :
    samplePoints ev a b = (List.range (steps + 1)).filterMap (sampleAt ev a b) ∧
    sampleX a b 0 = a ∧ sampleX a b steps = b ∧
    ∀ i, sampleX a b (i + 1) - sampleX a b i = (b - a) / steps := by
  refine ⟨samplePoints_eq_filterMap ev a b, ?_, ?_, ?_⟩
  · unfold sampleX
    norm_num
  · unfold sampleX steps
    push_cast
    ring
  · intro i
    unfold sampleX
    push_cast
    ring

/-- C9: when the expression field is empty, mathjs either rejects it at
parse time or compiles it to an evaluator that never yields a finite number
(evaluating the empty program gives undefined); under that hypothesis the
component produces no plot: it renders nothing or, in the reject case, the
inline notice — never a chart, and the computation is total so nothing is
thrown past the rendering boundary. -/
theorem empty_expression_no_plot (parsed : ParseOutcome) (a b : ℚ)
    (h : ∀ ev x, parsed = .ok ev → evalToOption (ev x) = none) :
    render parsed a b = .nothing ∨ ∃ m, render parsed a b = .errorPanel m := by
  match parsed with
  | .error m => exact Or.inr ⟨m, rfl⟩
  | .ok ev =>
    left
    have hempty : samplePoints ev a b = [] := by
      rw [samplePoints_eq_filterMap]
      refine List.filterMap_eq_nil_iff.mpr ?_
      intro i _
      unfold sampleAt
      rw [h ev (sampleX a b i) rfl]
      rfl
    simp [render, computeData, hempty]

/-- Witness for C9 at an evaluator whose every result is non-numeric, over
the default domain. -/
theorem empty_expression_no_plot_witness :
    (∀ ev x, (Except.ok (fun _ => EvalOut.nonNumeric) : ParseOutcome) = .ok ev →
      evalToOption (ev x) = none) ∧
    (render (.ok (fun _ => EvalOut.nonNumeric)) (-5) 5 = .nothing ∨
      ∃ m, render (.ok (fun _ => EvalOut.nonNumeric)) (-5) 5 = .errorPanel m) :=
  ⟨fun ev x h => by cases h; rfl,
    empty_expression_no_plot _ (-5) 5 (fun ev x h => by cases h; rfl)⟩

/-- C10: whenever at least one sample survives, minY ≤ -1 and maxY ≥ 1, so
the window height maxY - minY is at least 2 and in particular nonzero (the
divisor of mapY never vanishes), zero lies inside [minY, maxY], and the
horizontal axis guide drawn at mapY 0 lands inside the padded canvas. -/
theorem axis_zero_in_window (ev : ℚ → EvalOut) (a b : ℚ)
    (h : samplePoints ev a b ≠ []) :
    minY (allY ev a b) ≤ -1 ∧ 1 ≤ maxY (allY ev a b) ∧
    2 ≤ maxY (allY ev a b) - minY (allY ev a b) ∧
    maxY (allY ev a b) - minY (allY ev a b) ≠ 0 ∧
    minY (allY ev a b) ≤ 0 ∧ 0 ≤ maxY (allY ev a b) ∧
    padding ≤ mapY (minY (allY ev a b)) (maxY (allY ev a b)) 0 ∧
    mapY (minY (allY ev a b)) (maxY (allY ev a b)) 0 ≤ height - padding := by
  have h1 := minY_le_neg_one (allY ev a b)
  have h2 := one_le_maxY (allY ev a b)
  have h3 := mapY_mem_canvas (minY (allY ev a b)) (maxY (allY ev a b)) 0 h1 h2
  exact ⟨h1, h2, by linarith, by intro hc; linarith, by linarith, by linarith, h3.1, h3.2⟩

/-- Witness for C10 at the constant expression 2 over [0, 1]. -/
theorem axis_zero_in_window_witness :
    samplePoints (fun _ => EvalOut.ok 2) 0 1 ≠ [] ∧
    (minY (allY (fun _ => EvalOut.ok 2) 0 1) ≤ -1 ∧
      1 ≤ maxY (allY (fun _ => EvalOut.ok 2) 0 1) ∧
      2 ≤ maxY (allY (fun _ => EvalOut.ok 2) 0 1) - minY (allY (fun _ => EvalOut.ok 2) 0 1) ∧
      maxY (allY (fun _ => EvalOut.ok 2) 0 1) - minY (allY (fun _ => EvalOut.ok 2) 0 1) ≠ 0 ∧
      minY (allY (fun _ => EvalOut.ok 2) 0 1) ≤ 0 ∧
      0 ≤ maxY (allY (fun _ => EvalOut.ok 2) 0 1) ∧
      padding ≤ mapY (minY (allY (fun _ => EvalOut.ok 2) 0 1))
        (maxY (allY (fun _ => EvalOut.ok 2) 0 1)) 0 ∧
      mapY (minY (allY (fun _ => EvalOut.ok 2) 0 1))
        (maxY (allY (fun _ => EvalOut.ok 2) 0 1)) 0 ≤ height - padding) :=
  ⟨by decide, axis_zero_in_window _ 0 1 (by decide)⟩

end Socratica
